import Mathlib

/-!
Verification development for the `movie-api` Go backend.

The Go sources are shallowly embedded: the relational store (movies,
languages, genres, sync logs) is a `DB` record, repository functions are
pure state transformers on `DB`, machine integers are `Nat`/`Int`
(no arithmetic in the embedded code can overflow a 64-bit integer),
`float64` payload fields carry no arithmetic and are embedded as `Rat`,
timestamps are a logical clock `DB.time` advanced by each write, and
fallible operations return `Option`/`Except`.  String manipulation is
done on `String.data` (`List Char`) so that every definition evaluates
inside the kernel.
-/

namespace MovieAPI

/-! ### Character-list string helpers (Go `strings` / SQL primitives) -/

/-- Go `strings.Contains s pat`: some suffix of `s` has `pat` as a prefix. -/
def dataContains (pat : List Char) : List Char → Bool
  | [] => pat.isEmpty
  | c :: rest => pat.isPrefixOf (c :: rest) || dataContains pat rest

/-- Go `strings.Contains` on `String`. -/
def strContains (s pat : String) : Bool :=
  dataContains pat.data s.data

/-- Go `parts := strings.Split(s, "/"); parts[len(parts)-1]`: the segment of
`s` after its last `'/'` (the whole string when `s` has no slash, empty when
`s` ends with a slash).  The accumulator is reset at each `'/'`. -/
def lastURLSegment (s : String) : String :=
  ⟨s.data.foldl (fun acc c => if c = '/' then [] else acc ++ [c]) []⟩

/-- Go `strings.TrimPrefix s p`. -/
def trimPrefixStr (s p : String) : String :=
  if p.data.isPrefixOf s.data then ⟨s.data.drop p.data.length⟩ else s

/-- Decimal digit value of a character, if it is a digit. -/
def digitVal (c : Char) : Option Nat :=
  if 48 ≤ c.toNat ∧ c.toNat ≤ 57 then some (c.toNat - 48) else none

/-- Parse a nonempty run of decimal digits (used by both Go `strconv.ParseUint`
and the model of SQL `CAST(... AS INTEGER)`). -/
def parseDigits (acc : Nat) : List Char → Option Nat
  | [] => some acc
  | c :: rest =>
    match digitVal c with
    | some d => parseDigits (acc * 10 + d) rest
    | none => none

/-- Go `strconv.ParseUint(s, 10, 32)`: digits only (no sign), value below
`2 ^ 32`; `none` models the non-nil error return. -/
def goParseUint32 (s : String) : Option Nat :=
  match s.data with
  | [] => none
  | l =>
    match parseDigits 0 l with
    | some n => if n < 2 ^ 32 then some n else none
    | none => none

/-- SQL `CAST(s AS INTEGER)` (Postgres): an optional sign followed by a
nonempty run of digits; `none` models the query-aborting cast error.
(Postgres additionally trims surrounding whitespace, which never occurs in
the two-character month substrings this model feeds to it.) -/
def castIntStr (s : String) : Option Int :=
  match s.data with
  | [] => none
  | '-' :: rest => (if rest = [] then none else (parseDigits 0 rest).map (fun n => -(n : Int)))
  | '+' :: rest => (if rest = [] then none else (parseDigits 0 rest).map (fun n => (n : Int)))
  | l => (parseDigits 0 l).map (fun n => (n : Int))

/-! ### Data model (`internal/models`) -/

/-- `models.Language`.  `id` is the store-assigned primary key. -/
structure Language where
  id : Nat
  code : String
  name : String
  createdAt : Nat
  updatedAt : Nat
deriving Repr, DecidableEq

/-- `models.Genre` (`tmdbID` is the external id). -/
structure Genre where
  id : Nat
  tmdbID : Int
  name : String
  createdAt : Nat
  updatedAt : Nat
deriving Repr, DecidableEq

/-- `models.Movie`.  `voteAverage`/`popularity` are `float64` payload values
never used arithmetically, embedded as `Rat`. -/
structure Movie where
  id : Nat
  tmdbID : Int
  title : String
  originalTitle : String
  overview : String
  releaseDate : String
  posterPath : String
  backdropPath : String
  voteAverage : Rat
  voteCount : Int
  popularity : Rat
  adult : Bool
  languageID : Option Nat
  genres : List Genre
  createdAt : Nat
  updatedAt : Nat
deriving Repr, DecidableEq

/-- `models.SyncLog` (the store-assigned primary key and gorm `CreatedAt`
column are not referenced by any embedded code and are omitted). -/
structure SyncLog where
  syncType : String
  status : String
  moviesAdded : Nat
  moviesUpdated : Nat
  errorMessage : String
  syncedAt : Nat
deriving Repr, DecidableEq

/-- `models.TMDBMovieResponse`: one item of a fetched TMDB page. -/
structure TMDBMovieResponse where
  id : Int
  title : String
  originalTitle : String
  overview : String
  releaseDate : String
  posterPath : String
  backdropPath : String
  voteAverage : Rat
  voteCount : Int
  popularity : Rat
  adult : Bool
  originalLanguage : String
  genreIDs : List Int
deriving Repr, DecidableEq

/-- `models.ColumnChartData` (`value` is an `int64` count). -/
structure ColumnChartData where
  label : String
  value : Int
deriving Repr, DecidableEq

/-- `utils.PaginationMeta`. -/
structure PaginationMeta where
  page : Int
  limit : Int
  total : Int
  totalPages : Int
  hasNext : Bool
  hasPrevious : Bool
deriving Repr, DecidableEq

/-- The relational store: all persisted rows plus fresh primary-key counters
and a logical clock (`time`) advanced by every write, standing in for the
wall-clock timestamps gorm assigns to `CreatedAt`/`UpdatedAt`. -/
structure DB where
  movies : List Movie
  nextMovieID : Nat
  languages : List Language
  nextLangID : Nat
  genres : List Genre
  nextGenreID : Nat
  syncLogs : List SyncLog
  time : Nat
deriving Repr, DecidableEq

/-! ### Repositories (`internal/repository`) -/

/-- `movieRepository.Create`: gorm `Create` inserts the row, assigning the
primary key and `CreatedAt`/`UpdatedAt`.  Returns the new store and the row
as written (Go mutates `movie` in place). -/
def MovieRepository.Create (db : DB) (m : Movie) : DB × Movie :=
  let m' := { m with id := db.nextMovieID, createdAt := db.time, updatedAt := db.time }
  ({ db with movies := db.movies ++ [m'], nextMovieID := db.nextMovieID + 1, time := db.time + 1 }, m')

/-- `movieRepository.Update`: gorm `Save` with a nonzero primary key writes
every column of the row with that key (including `CreatedAt` as given) and
refreshes `UpdatedAt`. -/
def MovieRepository.Update (db : DB) (m : Movie) : DB :=
  { db with
    movies := db.movies.map (fun x => if x.id = m.id then { m with updatedAt := db.time } else x),
    time := db.time + 1 }

/-- `movieRepository.Delete`: hard delete by primary key (`Movie` has no
soft-delete column). -/
def MovieRepository.Delete (db : DB) (id : Nat) : DB :=
  { db with movies := db.movies.filter (fun m => m.id != id), time := db.time + 1 }

/-- `movieRepository.FindByID`: gorm `First` by primary key; a missing row
becomes the error string `"movie not found"`. -/
def MovieRepository.FindByID (db : DB) (id : Nat) : Except String Movie :=
  match db.movies.find? (fun m => m.id == id) with
  | some m => .ok m
  | none => .error "movie not found"

/-- `movieRepository.FindByTMDBID`: `First` on `tmdb_id = ?`; a missing row
is `(nil, nil)` in Go, here `none`. -/
def MovieRepository.FindByTMDBID (db : DB) (tmdbID : Int) : Option Movie :=
  db.movies.find? (fun m => m.tmdbID == tmdbID)

/-- `movieRepository.CreateSyncLog`: append-only insert. -/
def MovieRepository.CreateSyncLog (db : DB) (log : SyncLog) : DB :=
  { db with syncLogs := db.syncLogs ++ [log], time := db.time + 1 }

/-- `languageRepository.FindByCode`: `First` on `code = ?`, `none` when
missing. -/
def LanguageRepository.FindByCode (db : DB) (code : String) : Option Language :=
  db.languages.find? (fun l => l.code == code)

/-- `languageRepository.FindOrCreate`: gorm `FirstOrCreate` on `code = ?`. -/
def LanguageRepository.FindOrCreate (db : DB) (code name : String) : DB × Language :=
  match db.languages.find? (fun l => l.code == code) with
  | some l => (db, l)
  | none =>
    let l : Language := { id := db.nextLangID, code := code, name := name,
                          createdAt := db.time, updatedAt := db.time }
    ({ db with languages := db.languages ++ [l], nextLangID := db.nextLangID + 1,
               time := db.time + 1 }, l)

/-- `genreRepository.FindOrCreate`: gorm `FirstOrCreate` on `tmdb_id = ?`. -/
def GenreRepository.FindOrCreate (db : DB) (tmdbID : Int) (name : String) : DB × Genre :=
  match db.genres.find? (fun g => g.tmdbID == tmdbID) with
  | some g => (db, g)
  | none =>
    let g : Genre := { id := db.nextGenreID, tmdbID := tmdbID, name := name,
                       createdAt := db.time, updatedAt := db.time }
    ({ db with genres := db.genres ++ [g], nextGenreID := db.nextGenreID + 1,
               time := db.time + 1 }, g)

/-! ### Pagination (`utils.CreatePaginationMeta`, handler `GetAllMovies`) -/

/-- `utils.CreatePaginationMeta`.  Go computes
`totalPages := int((total + int64(limit) - 1) / int64(limit))`; `int64`
division truncates toward zero (`Int.tdiv`) and panics when the divisor is
zero, which this model surfaces as `none`. -/
def CreatePaginationMeta (page limit : Int) (total : Int) : Option PaginationMeta :=
  if limit = 0 then none
  else
    let totalPages := Int.tdiv (total + limit - 1) limit
    let totalPages := if totalPages = 0 then 1 else totalPages
    some { page := page, limit := limit, total := total, totalPages := totalPages,
           hasNext := page < totalPages, hasPrevious := page > 1 }

/-- `movieService.GetAllMovies`: clamps `page`/`limit` and runs the store
query with the clamped values.  The query itself (search, sort, date range,
offset/limit) is abstracted as `findAll`; the theorems below are about which
arguments it receives. -/
def MovieService.GetAllMovies {α : Type} (findAll : Int → Int → α) (page limit : Int) : α :=
  let page := if page < 1 then 1 else page
  let limit := if limit < 1 then 20 else limit
  let limit := if limit > 100 then 100 else limit
  findAll page limit

/-- Handler `GetAllMovies` (`internal/handlers`): runs the service with the
raw parsed `page`/`limit`, then builds pagination metadata from those same
raw values and the returned total.  `findAll` returns `(rows, total)`. -/
def MovieHandler.GetAllMovies (findAll : Int → Int → List Movie × Int)
    (page limit : Int) : (List Movie × Int) × Option PaginationMeta :=
  let r := MovieService.GetAllMovies findAll page limit
  (r, CreatePaginationMeta page limit r.2)

/-! ### CRUD service and handlers (`movie_service.go`, `movie_handler`) -/

/-- `movieService.GetMovieByID` — a pass-through to the repository. -/
def MovieService.GetMovieByID (db : DB) (id : Nat) : Except String Movie :=
  MovieRepository.FindByID db id

/-- `movieService.UpdateMovie`: looks the row up by primary key, forces
`ID`, `CreatedAt` and `TMDBID` back to the stored values, then `Save`s.
(The MinIO old-image cleanup in the Go function only touches the object
store, never the movie row, and is not part of the store model.  The
`existing == nil` branch is dead code: `FindByID` signals a missing row
through its error return.) -/
def MovieService.UpdateMovie (db : DB) (id : Nat) (movie : Movie) : Except String DB :=
  match MovieRepository.FindByID db id with
  | .error e => .error e
  | .ok existing =>
    .ok (MovieRepository.Update db
      { movie with id := id, createdAt := existing.createdAt, tmdbID := existing.tmdbID })

/-- `movieService.DeleteMovie` (MinIO image cleanup omitted as above). -/
def MovieService.DeleteMovie (db : DB) (id : Nat) : Except String DB :=
  match MovieRepository.FindByID db id with
  | .error e => .error e
  | .ok _ => .ok (MovieRepository.Delete db id)

/-- The fixed language-code table shared verbatim by
`movieService.getLanguageName` and the handler-package copy. -/
def getLanguageName (c : String) : String :=
  if c = "en" then "English" else if c = "ja" then "Japanese"
  else if c = "ko" then "Korean" else if c = "zh" then "Chinese"
  else if c = "es" then "Spanish" else if c = "fr" then "French"
  else if c = "de" then "German" else if c = "it" then "Italian"
  else if c = "pt" then "Portuguese" else if c = "ru" then "Russian"
  else if c = "hi" then "Hindi" else if c = "th" then "Thai"
  else if c = "id" then "Indonesian" else if c = "tr" then "Turkish"
  else if c = "ar" then "Arabic" else if c = "pl" then "Polish"
  else if c = "nl" then "Dutch" else if c = "sv" then "Swedish"
  else if c = "no" then "Norwegian" else if c = "da" then "Danish"
  else if c = "fi" then "Finnish" else if c = "cs" then "Czech"
  else if c = "hu" then "Hungarian" else if c = "ro" then "Romanian"
  else c

/-- `movieService.getGenreName`: fixed TMDB genre-id table with a
`"Genre <id>"` fallback. -/
def getGenreName (genreID : Int) : String :=
  if genreID = 28 then "Action" else if genreID = 12 then "Adventure"
  else if genreID = 16 then "Animation" else if genreID = 35 then "Comedy"
  else if genreID = 80 then "Crime" else if genreID = 99 then "Documentary"
  else if genreID = 18 then "Drama" else if genreID = 10751 then "Family"
  else if genreID = 14 then "Fantasy" else if genreID = 36 then "History"
  else if genreID = 27 then "Horror" else if genreID = 10402 then "Music"
  else if genreID = 9648 then "Mystery" else if genreID = 10749 then "Romance"
  else if genreID = 878 then "Science Fiction" else if genreID = 10770 then "TV Movie"
  else if genreID = 53 then "Thriller" else if genreID = 10752 then "War"
  else if genreID = 37 then "Western"
  else "Genre " ++ toString genreID

/-- `handlers.MovieRequest` (from `movie_dto.go`): the client-supplied
payload of `POST /movies` and `PUT /movies/{id}`. -/
structure MovieRequest where
  tmdbID : Int
  title : String
  originalTitle : String
  overview : String
  releaseDate : String
  posterPath : String
  backdropPath : String
  voteAverage : Rat
  voteCount : Int
  popularity : Rat
  adult : Bool
  originalLanguage : String
deriving Repr, DecidableEq

/-- Handler `convertRequestToMovie`: resolves the request's language code
(lookup, else find-or-create) and builds the `Movie` payload.  Its Go error
return is always `nil`. -/
def convertRequestToMovie (db : DB) (req : MovieRequest) : DB × Movie :=
  let r : DB × Option Nat :=
    if req.originalLanguage ≠ "" then
      match LanguageRepository.FindByCode db req.originalLanguage with
      | some lang => (db, some lang.id)
      | none =>
        let c := LanguageRepository.FindOrCreate db req.originalLanguage
                   (getLanguageName req.originalLanguage)
        (c.1, some c.2.id)
    else (db, none)
  (r.1,
   { id := 0, tmdbID := req.tmdbID, title := req.title, originalTitle := req.originalTitle,
     overview := req.overview, releaseDate := req.releaseDate, posterPath := req.posterPath,
     backdropPath := req.backdropPath, voteAverage := req.voteAverage,
     voteCount := req.voteCount, popularity := req.popularity, adult := req.adult,
     languageID := r.2, genres := [], createdAt := 0, updatedAt := 0 })

/-- Handler `GetMovieByID`: bad id → 400; service error → 404; ok → 200.
The result is the HTTP status code. -/
def MovieHandler.GetMovieByID (db : DB) (idParam : String) : Nat :=
  match goParseUint32 idParam with
  | none => 400
  | some id =>
    match MovieService.GetMovieByID db id with
    | .error _ => 404
    | .ok _ => 200

/-- Handler `UpdateMovie`: bad id → 400; any service error (including a
missing movie) → 500; ok → 200.  Body parsing is given as the structured
`req` (a malformed body, the only 400 source besides the id, is out of
scope).  Returns the status code and the resulting store. -/
def MovieHandler.UpdateMovie (db : DB) (idParam : String) (req : MovieRequest) : Nat × DB :=
  match goParseUint32 idParam with
  | none => (400, db)
  | some id =>
    let conv := convertRequestToMovie db req
    match MovieService.UpdateMovie conv.1 id conv.2 with
    | .error _ => (500, conv.1)
    | .ok db' => (200, db')

/-- Handler `DeleteMovie`: bad id → 400; any service error (including a
missing movie) → 500; ok → 200. -/
def MovieHandler.DeleteMovie (db : DB) (idParam : String) : Nat × DB :=
  match goParseUint32 idParam with
  | none => (400, db)
  | some id =>
    match MovieService.DeleteMovie db id with
    | .error _ => (500, db)
    | .ok db' => (200, db')

/-! ### MinIO upload service (`minio_service.go`) -/

/-- `MinIOService.DeleteFile`: when the input contains `"http"`, keep only
the part after the last `'/'`; then trim a leading `"<bucket>/"`; the object
is removed under the resulting key, which this model returns. -/
def MinIOService.DeleteFile (bucket objectPath : String) : String :=
  let objectPath := if strContains objectPath "http" then lastURLSegment objectPath else objectPath
  trimPrefixStr objectPath (bucket ++ "/")

/-! ### Monthly chart (`movieRepository.GetMoviesByMonth`) -/

/-- The year as four digit runes, exactly as Go builds it:
`string(rune('0'+year/1000)) + string(rune('0'+(year/100)%10)) + ...`
(`Int.tdiv`/`Int.tmod` are Go's truncating `/` and `%`; the service layer
guarantees `1900 ≤ year ≤ 2100`, so each digit is in `0..9`). -/
def yearStr (year : Int) : String :=
  ⟨[Char.ofNat (48 + (Int.tdiv year 1000).toNat),
    Char.ofNat (48 + (Int.tmod (Int.tdiv year 100) 10).toNat),
    Char.ofNat (48 + (Int.tmod (Int.tdiv year 10) 10).toNat),
    Char.ofNat (48 + (Int.tmod year 10).toNat)]⟩

/-- SQL `SUBSTRING(release_date, 6, 2)`: characters 6 and 7 (1-indexed). -/
def monthSub (rd : String) : String :=
  ⟨(rd.data.drop 5).take 2⟩

/-- The rows selected by the month query:
`release_date LIKE '<year>%' AND LENGTH(release_date) >= 7`. -/
def monthMatches (db : DB) (year : Int) : List Movie :=
  db.movies.filter (fun m =>
    (yearStr year).data.isPrefixOf m.releaseDate.data && decide (7 ≤ m.releaseDate.data.length))

/-- First-occurrence deduplication, modelling the one-row-per-distinct-value
contract of SQL `GROUP BY SUBSTRING(release_date, 6, 2)`. -/
def dedupFirstAux (acc : List String) : List String → List String
  | [] => acc
  | s :: rest => if s ∈ acc then dedupFirstAux acc rest else dedupFirstAux (acc ++ [s]) rest

/-- See `dedupFirstAux`. -/
def dedupFirst (l : List String) : List String :=
  dedupFirstAux [] l

/-- The grouped rows `(CAST(sub AS INTEGER), COUNT(*))`, one per distinct
month substring among the matching rows, in first-occurrence order.  The SQL
`ORDER BY month` is omitted: it permutes entries and only matters to the Go
`monthMap` when two distinct substrings cast to the same integer, in which
case the winning entry is unspecified in SQL as well. -/
def monthGroups (db : DB) (year : Int) : List (Int × Int) :=
  let matching := monthMatches db year
  (dedupFirst (matching.map (fun m => monthSub m.releaseDate))).filterMap (fun s =>
    (castIntStr s).map (fun k =>
      (k, ((matching.filter (fun m => monthSub m.releaseDate == s)).length : Int))))

/-- The Go `monthMap[month]` lookup: map insertion lets the last entry with a
given key win, and a missing key yields the zero value `0`. -/
def monthMapLookup (mcs : List (Int × Int)) (month : Int) : Int :=
  match (mcs.filter (fun p => p.1 == month)).getLast? with
  | some p => p.2
  | none => 0

/-- `movieRepository.GetMoviesByMonth`: runs the grouped month query (a
failing `CAST` aborts the whole query, modelled as the `.error` branch),
then zero-fills a fixed 12-bucket histogram labelled `Jan..Dec`. -/
def MovieRepository.GetMoviesByMonth (db : DB) (year : Int) : Except String (List ColumnChartData) :=
  if ((dedupFirst ((monthMatches db year).map (fun m => monthSub m.releaseDate))).all
        (fun s => (castIntStr s).isSome)) then
    let mm := monthMapLookup (monthGroups db year)
    .ok [⟨"Jan", mm 1⟩, ⟨"Feb", mm 2⟩, ⟨"Mar", mm 3⟩, ⟨"Apr", mm 4⟩,
         ⟨"May", mm 5⟩, ⟨"Jun", mm 6⟩, ⟨"Jul", mm 7⟩, ⟨"Aug", mm 8⟩,
         ⟨"Sep", mm 9⟩, ⟨"Oct", mm 10⟩, ⟨"Nov", mm 11⟩, ⟨"Dec", mm 12⟩]
  else .error "invalid input syntax for type integer"

/-- `movieService.GetMoviesByMonth`: rejects years outside `[1900, 2100]`,
otherwise delegates to the repository. -/
def MovieService.GetMoviesByMonth (db : DB) (year : Int) : Except String (List ColumnChartData) :=
  if year < 1900 ∨ year > 2100 then .error ("invalid year: " ++ toString year)
  else MovieRepository.GetMoviesByMonth db year

/-! ### TMDB sync pipeline (`movieService.SyncMoviesFromTMDB`) -/

/-- The environment of one sync run: the TMDB page fetch outcome and fault
injection for each fallible repository call made per item (`langFail`:
`langRepo.FindOrCreate` errors; `genreFail`: `genreRepo.FindOrCreate` errors
for a given genre id; `findFail`: `repo.FindByTMDBID` errors; `persistFail`:
`repo.Create`/`repo.Update` errors).  A failed repository call leaves the
store unchanged. -/
structure SyncEnv where
  fetch : Nat → Except String (List TMDBMovieResponse)
  langFail : TMDBMovieResponse → Bool
  genreFail : TMDBMovieResponse → Int → Bool
  findFail : TMDBMovieResponse → Bool
  persistFail : TMDBMovieResponse → Bool

/-- The running state of a sync: the store plus the `moviesAdded` /
`moviesUpdated` counters. -/
structure SyncState where
  db : DB
  added : Nat
  updated : Nat
deriving Repr, DecidableEq

/-- The `Movie` struct literal built for a fetched item (genres are attached
afterwards, as in Go). -/
def buildSyncMovie (item : TMDBMovieResponse) (langID : Nat) : Movie :=
  { id := 0, tmdbID := item.id, title := item.title, originalTitle := item.originalTitle,
    overview := item.overview, releaseDate := item.releaseDate, posterPath := item.posterPath,
    backdropPath := item.backdropPath, voteAverage := item.voteAverage,
    voteCount := item.voteCount, popularity := item.popularity, adult := item.adult,
    languageID := some langID, genres := [], createdAt := 0, updatedAt := 0 }

/-- The per-item genre loop: find-or-create each genre id; a failing call is
logged and `continue`s the **genre** loop, skipping only that genre. -/
def resolveGenres (env : SyncEnv) (item : TMDBMovieResponse) :
    List Int → DB → DB × List Genre
  | [], db => (db, [])
  | gid :: rest, db =>
    if env.genreFail item gid then resolveGenres env item rest db
    else
      let r := GenreRepository.FindOrCreate db gid (getGenreName gid)
      let r' := resolveGenres env item rest r.1
      (r'.1, r.2 :: r'.2)

/-- The body of the per-item loop of `SyncMoviesFromTMDB`: resolve the
language (failure skips the item), resolve the genres, look the movie up by
external id (failure skips the item), then create (counting `added`) or,
preserving `ID` and `CreatedAt`, update (counting `updated`); a persistence
failure skips the item. -/
def syncItem (env : SyncEnv) (st : SyncState) (item : TMDBMovieResponse) : SyncState :=
  if env.langFail item then st
  else
    let lr := LanguageRepository.FindOrCreate st.db item.originalLanguage
                (getLanguageName item.originalLanguage)
    let movie0 := buildSyncMovie item lr.2.id
    let gr := resolveGenres env item item.genreIDs lr.1
    let movie := { movie0 with genres := gr.2 }
    if env.findFail item then { st with db := gr.1 }
    else
      match MovieRepository.FindByTMDBID gr.1 movie.tmdbID with
      | none =>
        if env.persistFail item then { st with db := gr.1 }
        else { db := (MovieRepository.Create gr.1 movie).1,
               added := st.added + 1, updated := st.updated }
      | some existing =>
        if env.persistFail item then { st with db := gr.1 }
        else
          let movie' := { movie with id := existing.id, createdAt := existing.createdAt }
          { db := MovieRepository.Update gr.1 movie',
            added := st.added, updated := st.updated + 1 }

/-- The page loop: fetch each page in order (recording it in the `fetched`
trace); a fetch error aborts the loop immediately, an ok page folds
`syncItem` over its items. -/
def syncPagesLoop (env : SyncEnv) :
    List Nat → SyncState → List Nat →
    (SyncState × List Nat) ⊕ (Nat × String × SyncState × List Nat)
  | [], st, fetched => .inl (st, fetched)
  | p :: rest, st, fetched =>
    match env.fetch p with
    | .error e => .inr (p, e, st, fetched ++ [p])
    | .ok items => syncPagesLoop env rest (items.foldl (syncItem env) st) (fetched ++ [p])

/-- `pages` clamped to `[1, 10]` as at the top of `SyncMoviesFromTMDB`. -/
def clampPages (pages : Int) : Nat :=
  (if pages < 1 then 1 else if pages > 10 then (10 : Int) else pages).toNat

/-- The outcome of a sync run: the store, the `SyncLog` row the run built
(and persisted), the error returned to the caller, and the trace of pages on
which a TMDB fetch was attempted. -/
structure SyncResult where
  db : DB
  log : SyncLog
  err : Option String
  fetched : List Nat
deriving Repr, DecidableEq

/-- `movieService.SyncMoviesFromTMDB`.  The log row starts as
`{manual, failed, SyncedAt: now}`; a fetch failure on page `p` stamps
`"failed to fetch page <p>: <err>"` into it, persists it and returns the
error (the counter fields are only written on full completion, so a failed
log keeps `added = updated = 0`); full completion persists it with status
`"success"` and the final counters. -/
def MovieService.SyncMoviesFromTMDB (env : SyncEnv) (db : DB) (pages : Int) : SyncResult :=
  let now := db.time
  match syncPagesLoop env (List.range' 1 (clampPages pages)) ⟨db, 0, 0⟩ [] with
  | .inr (p, e, st, fetched) =>
    let log : SyncLog := { syncType := "manual", status := "failed", moviesAdded := 0,
                           moviesUpdated := 0,
                           errorMessage := "failed to fetch page " ++ toString p ++ ": " ++ e,
                           syncedAt := now }
    { db := MovieRepository.CreateSyncLog st.db log, log := log, err := some e, fetched := fetched }
  | .inl (st, fetched) =>
    let log : SyncLog := { syncType := "manual", status := "success", moviesAdded := st.added,
                           moviesUpdated := st.updated, errorMessage := "", syncedAt := now }
    { db := MovieRepository.CreateSyncLog st.db log, log := log, err := none, fetched := fetched }

/-- No injected fault for `item`: every repository call made while processing
it succeeds. -/
def noItemFaults (env : SyncEnv) (item : TMDBMovieResponse) : Prop :=
  env.langFail item = false ∧ (∀ g, env.genreFail item g = false) ∧
  env.findFail item = false ∧ env.persistFail item = false

/-! ### Concrete sample data for the closed theorems -/

/-- A fresh, empty store (gorm primary keys start at 1). -/
def dbEmpty : DB :=
  { movies := [], nextMovieID := 1, languages := [], nextLangID := 1,
    genres := [], nextGenreID := 1, syncLogs := [], time := 0 }

/-- A stored movie row with primary key 1. -/
def mv1 : Movie :=
  { id := 1, tmdbID := 550, title := "Fight Club", originalTitle := "Fight Club",
    overview := "o", releaseDate := "1999-10-15", posterPath := "/p.jpg",
    backdropPath := "/b.jpg", voteAverage := 8, voteCount := 26280, popularity := 61,
    adult := false, languageID := some 1, genres := [], createdAt := 3, updatedAt := 3 }

/-- A one-movie store. -/
def db1 : DB :=
  { movies := [mv1], nextMovieID := 2, languages := [], nextLangID := 1,
    genres := [], nextGenreID := 1, syncLogs := [], time := 5 }

/-- An update payload that tries to change every field, including the
external id and the creation timestamp. -/
def reqS : Movie :=
  { id := 77, tmdbID := 999, title := "New Title", originalTitle := "New Original",
    overview := "new", releaseDate := "2024-01-02", posterPath := "/new.jpg",
    backdropPath := "/newb.jpg", voteAverage := 1, voteCount := 2, popularity := 3,
    adult := true, languageID := none, genres := [], createdAt := 42, updatedAt := 42 }

/-- A request body for the update/delete handler theorems. -/
def reqSample : MovieRequest :=
  { tmdbID := 550, title := "T", originalTitle := "T", overview := "o",
    releaseDate := "2020-01-01", posterPath := "", backdropPath := "",
    voteAverage := 5, voteCount := 1, popularity := 1, adult := false,
    originalLanguage := "en" }

/-- A TMDB item with external id 550. -/
def itemA : TMDBMovieResponse :=
  { id := 550, title := "A", originalTitle := "A", overview := "oa",
    releaseDate := "2020-01-01", posterPath := "/a.jpg", backdropPath := "/ab.jpg",
    voteAverage := 7, voteCount := 100, popularity := 50, adult := false,
    originalLanguage := "en", genreIDs := [28, 12] }

/-- A TMDB item with external id 551. -/
def itemB : TMDBMovieResponse :=
  { id := 551, title := "B", originalTitle := "B", overview := "ob",
    releaseDate := "2019-05-06", posterPath := "/b.jpg", backdropPath := "/bb.jpg",
    voteAverage := 6, voteCount := 90, popularity := 40, adult := false,
    originalLanguage := "ja", genreIDs := [28] }

/-- A later payload for external id 550 with every field changed. -/
def itemA2 : TMDBMovieResponse :=
  { id := 550, title := "A2", originalTitle := "A2", overview := "oa2",
    releaseDate := "2021-02-03", posterPath := "/a2.jpg", backdropPath := "/a2b.jpg",
    voteAverage := 8, voteCount := 200, popularity := 60, adult := true,
    originalLanguage := "fr", genreIDs := [35] }

/-- A fault-free environment whose fetches return empty pages. -/
def envNoFaults : SyncEnv :=
  { fetch := fun _ => .ok [], langFail := fun _ => false, genreFail := fun _ _ => false,
    findFail := fun _ => false, persistFail := fun _ => false }

/-- Fault-free environment: page 1 carries two fresh movies. -/
def envTwoNew : SyncEnv :=
  { fetch := fun p => if p = 1 then .ok [itemA, itemB] else .ok [],
    langFail := fun _ => false, genreFail := fun _ _ => false,
    findFail := fun _ => false, persistFail := fun _ => false }

/-- Environment where every genre find-or-create fails but nothing else. -/
def envGenreFail : SyncEnv :=
  { fetch := fun p => if p = 1 then .ok [itemA] else .ok [],
    langFail := fun _ => false, genreFail := fun _ _ => true,
    findFail := fun _ => false, persistFail := fun _ => false }

/-- Environment whose language resolution always fails. -/
def envLangFail : SyncEnv :=
  { fetch := fun _ => .ok [], langFail := fun _ => true, genreFail := fun _ _ => false,
    findFail := fun _ => false, persistFail := fun _ => false }

/-- Environment where page 1 fetches fine and page 2 fails. -/
def envPage2Fails : SyncEnv :=
  { fetch := fun p => if p = 1 then .ok [] else .error "connection refused",
    langFail := fun _ => false, genreFail := fun _ _ => false,
    findFail := fun _ => false, persistFail := fun _ => false }

end MovieAPI

namespace MovieAPI

/-! ### Helper lemmas -/

theorem dataContains_nil_pat (l : List Char) : dataContains [] l = true := by
  induction l with
  | nil => rfl
  | cons c rest ih => simp [dataContains, List.isPrefixOf]

theorem dataContains_append_right (pat l1 l2 : List Char)
    (h : dataContains pat l1 = true) : dataContains pat (l1 ++ l2) = true := by
  induction l1 with
  | nil =>
    simp [dataContains, List.isEmpty_iff] at h
    subst h
    exact dataContains_nil_pat l2
  | cons c rest ih =>
    simp only [dataContains, Bool.or_eq_true] at h
    rcases h with h | h
    · have hp : pat <+: c :: rest := by
        exact (List.isPrefixOf_iff_prefix).1 h
      have hp2 : pat <+: (c :: rest) ++ l2 := hp.trans (List.prefix_append _ _)
      simp only [List.cons_append, dataContains, Bool.or_eq_true]
      exact Or.inl ((List.isPrefixOf_iff_prefix).2 hp2)
    · simp only [List.cons_append, dataContains, Bool.or_eq_true]
      exact Or.inr (ih h)

theorem foldl_seg_no_slash (l acc : List Char) (h : '/' ∉ l) :
    l.foldl (fun acc c => if c = '/' then [] else acc ++ [c]) acc = acc ++ l := by
  induction l generalizing acc with
  | nil => simp
  | cons c rest ih =>
    have hc : ¬(c = '/') := fun hc => h (hc ▸ List.mem_cons_self c rest)
    have hr : '/' ∉ rest := fun hr => h (List.mem_cons_of_mem c hr)
    simp only [List.foldl_cons, if_neg hc]
    rw [ih (acc ++ [c]) hr, List.append_assoc]
    rfl

theorem lastURLSegment_append (pre seg : String) (h : '/' ∉ seg.data) :
    lastURLSegment (pre ++ "/" ++ seg) = seg := by
  unfold lastURLSegment
  have hd : (pre ++ "/" ++ seg).data = pre.data ++ ('/' :: seg.data) := by
    simp [String.data_append]
  rw [hd, List.foldl_append, List.foldl_cons]
  have hstep : (if ('/' : Char) = '/' then ([] : List Char)
      else (List.foldl (fun acc c => if c = '/' then [] else acc ++ [c]) [] pre.data) ++ ['/']) = [] :=
    if_pos rfl
  rw [hstep, foldl_seg_no_slash seg.data [] h, List.nil_append]

theorem trimPrefixStr_no_slash (bucket seg : String) (h : '/' ∉ seg.data) :
    trimPrefixStr seg (bucket ++ "/") = seg := by
  unfold trimPrefixStr
  rw [if_neg]
  intro hp
  have hpre : (bucket ++ "/").data <+: seg.data := (List.isPrefixOf_iff_prefix).1 hp
  obtain ⟨t, ht⟩ := hpre
  apply h
  rw [← ht]
  have : '/' ∈ (bucket ++ "/").data := by
    simp [String.data_append]
  exact List.mem_append.2 (Or.inl this)

end MovieAPI

namespace MovieAPI

/-! ### Claim theorems -/

/-- C5: for every input to the movie list operation, a limit outside
`[1,100]` is clamped into `[1,100]` (defaulting to 20 when below 1, capped
at 100 when above) and a page below 1 is coerced to 1, before the store
query runs with those values. -/
theorem C5_list_params_clamped (α : Type) (findAll : Int → Int → α) (page limit : Int) :
    ∃ p l, MovieService.GetAllMovies findAll page limit = findAll p l ∧
      1 ≤ p ∧ 1 ≤ l ∧ l ≤ 100 ∧
      (page < 1 → p = 1) ∧ (1 ≤ page → p = page) ∧
      (limit < 1 → l = 20) ∧ (100 < limit → l = 100) ∧
      (1 ≤ limit → limit ≤ 100 → l = limit) := by
  unfold MovieService.GetAllMovies
  refine ⟨_, _, rfl, ?_, ?_, ?_, ?_, ?_, ?_, ?_, ?_⟩ <;> split_ifs <;> omega

/-- Witness for C5 at a concrete out-of-range input: page 0 becomes 1 and
limit 150 becomes 100. -/
theorem C5_witness :
    MovieService.GetAllMovies (fun p l => (p, l)) 0 150 = ((1 : Int), (100 : Int)) := by
  obtain ⟨p, l, hf, _, _, _, hp, _, _, hl, _⟩ :=
    C5_list_params_clamped (Int × Int) (fun p l => (p, l)) 0 150
  rw [hf, hp (by decide), hl (by decide)]

/-- C9: the `GET /movies` handler computes pagination metadata with
`CreatePaginationMeta` applied to the **raw** query `page`/`limit` and the
returned total, not to the clamped values the query ran with; the divisor of
the `totalPages` division is the raw limit, so raw `limit = 0` — for which
the underlying query still succeeds with the default limit 20 — makes the
metadata computation an integer division by zero (`none` in this model),
and `limit = 0` is the only divisor that does. -/
theorem C9_meta_uses_raw_limit_div_by_zero (findAll : Int → Int → List Movie × Int)
    (page limit total : Int) :
    (MovieHandler.GetAllMovies findAll page 0).2 = none ∧
    MovieService.GetAllMovies (fun _ l => l) page 0 = 20 ∧
    (MovieHandler.GetAllMovies findAll page limit).2
      = CreatePaginationMeta page limit (MovieService.GetAllMovies findAll page limit).2 ∧
    (CreatePaginationMeta page limit total = none ↔ limit = 0) := by
  refine ⟨?_, ?_, rfl, ?_⟩
  · simp [MovieHandler.GetAllMovies, CreatePaginationMeta]
  · simp [MovieService.GetAllMovies]
  · constructor
    · intro h
      by_contra hne
      simp [CreatePaginationMeta, hne] at h
    · intro h
      simp [CreatePaginationMeta, h]

/-- Witness for C9 at a concrete input: with raw `limit = 0` the handler's
metadata is the division-by-zero `none` although the query itself ran. -/
theorem C9_witness :
    (MovieHandler.GetAllMovies (fun _ _ => ([], 57)) 1 0).2 = none :=
  (C9_meta_uses_raw_limit_div_by_zero (fun _ _ => ([], 57)) 1 0 0).1

/-- C8 counterexample: `DeleteFile` does **not** strip a query string from
the extracted trailing segment (its callers strip `?...` themselves before
calling it), and for a bare key (no `"http"`) it does not extract the
trailing path segment at all — the claim fails on both points. -/
theorem C8_counterexample :
    MinIOService.DeleteFile "movies" "http://cdn.example.com/movies/poster.jpg?sig=abc"
      = "poster.jpg?sig=abc" ∧
    MinIOService.DeleteFile "movies" "a/b/c.jpg" = "a/b/c.jpg" ∧
    ("poster.jpg?sig=abc" : String) ≠ "poster.jpg" ∧
    ("a/b/c.jpg" : String) ≠ "c.jpg" := by
  refine ⟨by decide, by decide, by decide, by decide⟩

/-- C8 (amended): the delete operation takes the trailing path segment only
when the input contains `"http"`, keeping any query string (nothing is
stripped after the last `'/'`); an input without `"http"` is used as-is;
in both cases a leading `"<bucket>/"` prefix is then trimmed and the object
is removed under the resulting key. -/
theorem C8_delete_key_amended :
    (∀ bucket pre seg : String, strContains pre "http" = true → '/' ∉ seg.data →
      MinIOService.DeleteFile bucket (pre ++ "/" ++ seg) = seg) ∧
    (∀ bucket s : String, strContains s "http" = false →
      MinIOService.DeleteFile bucket s = trimPrefixStr s (bucket ++ "/")) := by
  constructor
  · intro bucket pre seg hhttp hseg
    unfold MinIOService.DeleteFile
    have hc : strContains (pre ++ "/" ++ seg) "http" = true := by
      unfold strContains at hhttp ⊢
      have := dataContains_append_right "http".data pre.data ('/' :: seg.data) hhttp
      simpa [String.data_append] using this
    rw [hc]
    simp only [if_true]
    rw [lastURLSegment_append pre seg hseg]
    exact trimPrefixStr_no_slash bucket seg hseg
  · intro bucket s h
    unfold MinIOService.DeleteFile
    rw [h]
    simp

/-- Witness for the amended C8: a presigned-style URL keeps its query
string through deletion. -/
theorem C8_witness :
    MinIOService.DeleteFile "movies" ("http://h/movies" ++ "/" ++ "f.jpg?q=1") = "f.jpg?q=1" :=
  C8_delete_key_amended.1 "movies" "http://h/movies" "f.jpg?q=1" (by decide) (by decide)

/-- `convertRequestToMovie` only ever touches the `languages` table: the
stored movie rows are unchanged. -/
theorem convertRequestToMovie_movies (db : DB) (req : MovieRequest) :
    (convertRequestToMovie db req).1.movies = db.movies := by
  unfold convertRequestToMovie
  dsimp only
  split
  · cases hfc : LanguageRepository.FindByCode db req.originalLanguage with
    | some lang => simp [hfc]
    | none =>
      simp only [hfc]
      unfold LanguageRepository.FindOrCreate
      split <;> rfl
  · rfl

/-- C6 counterexample: with an empty store and the well-formed id `"1"`,
the `PUT /movies/{id}` and `DELETE /movies/{id}` handlers answer **500**,
not the claimed 404 (their error branches use `StatusInternalServerError`
for every service error, including "movie not found"). -/
theorem C6_counterexample :
    dbEmpty.movies = [] ∧
    (MovieHandler.UpdateMovie dbEmpty "1" reqSample).1 = 500 ∧
    (MovieHandler.DeleteMovie dbEmpty "1").1 = 500 ∧
    (500 : Nat) ≠ 404 := by
  refine ⟨rfl, rfl, rfl, by decide⟩

/-- C6 (amended): for a well-formed id with no stored movie, only
`GET /movies/{id}` answers 404; the update and delete handlers map the
service's "movie not found" error to 500. -/
theorem C6_missing_movie_status (db : DB) (idParam : String) (id : Nat) (req : MovieRequest)
    (hparse : goParseUint32 idParam = some id)
    (hmissing : db.movies.find? (fun m => m.id == id) = none) :
    MovieHandler.GetMovieByID db idParam = 404 ∧
    (MovieHandler.UpdateMovie db idParam req).1 = 500 ∧
    (MovieHandler.DeleteMovie db idParam).1 = 500 := by
  have hfind : MovieRepository.FindByID db id = .error "movie not found" := by
    unfold MovieRepository.FindByID
    rw [hmissing]
  have hfindConv : MovieRepository.FindByID (convertRequestToMovie db req).1 id
      = .error "movie not found" := by
    unfold MovieRepository.FindByID
    rw [convertRequestToMovie_movies, hmissing]
  refine ⟨?_, ?_, ?_⟩
  · simp only [MovieHandler.GetMovieByID, hparse, MovieService.GetMovieByID, hfind]
  · simp only [MovieHandler.UpdateMovie, hparse, MovieService.UpdateMovie, hfindConv]
  · simp only [MovieHandler.DeleteMovie, hparse, MovieService.DeleteMovie, hfind]

/-- Witness for the amended C6 at the empty store and id `"2"`. -/
theorem C6_witness :
    MovieHandler.GetMovieByID dbEmpty "2" = 404 ∧
    (MovieHandler.UpdateMovie dbEmpty "2" reqSample).1 = 500 ∧
    (MovieHandler.DeleteMovie dbEmpty "2").1 = 500 :=
  C6_missing_movie_status dbEmpty "2" 2 reqSample rfl rfl

/-- C10: a successful public update writes, at the targeted primary key,
exactly the supplied payload but with the internal id, the original
creation timestamp and the original external (TMDB) id forced back to the
stored row's values — whatever the request supplied for them — while every
other column comes from the request; no other row changes. -/
theorem C10_update_preserves_identity (db : DB) (id : Nat) (req ex : Movie)
    (hfound : MovieRepository.FindByID db id = .ok ex) :
    MovieService.UpdateMovie db id req = .ok { db with
      movies := db.movies.map (fun x =>
        if x.id = id
        then { req with
               id := id
               tmdbID := ex.tmdbID
               createdAt := ex.createdAt
               updatedAt := db.time }
        else x),
      time := db.time + 1 } := by
  unfold MovieService.UpdateMovie
  rw [hfound]
  rfl

/-- Witness for C10: updating movie 1 of `db1` with a payload that tries to
change the external id and creation timestamp keeps `createdAt = 3`,
`tmdbID = 550` and `id = 1` while taking the payload's title. -/
theorem mem_dedupFirstAux (acc l : List String) (x : String)
    (h : x ∈ dedupFirstAux acc l) : x ∈ acc ∨ x ∈ l := by
  induction l generalizing acc with
  | nil => exact Or.inl h
  | cons s rest ih =>
    unfold dedupFirstAux at h
    split at h
    · rcases ih acc h with h' | h'
      · exact Or.inl h'
      · exact Or.inr (List.mem_cons_of_mem s h')
    · rcases ih (acc ++ [s]) h with h' | h'
      · rcases List.mem_append.1 h' with h'' | h''
        · exact Or.inl h''
        · simp at h''
          exact Or.inr (h'' ▸ List.mem_cons_self s rest)
      · exact Or.inr (List.mem_cons_of_mem s h')

theorem mem_dedupFirst (l : List String) (x : String) (h : x ∈ dedupFirst l) : x ∈ l := by
  rcases mem_dedupFirstAux [] l x h with h' | h'
  · cases h'
  · exact h'

theorem monthGroups_keys (db : DB) (year : Int) (p : Int × Int)
    (hp : p ∈ monthGroups db year) :
    ∃ m ∈ monthMatches db year, castIntStr (monthSub m.releaseDate) = some p.1 := by
  simp only [monthGroups, List.mem_filterMap] at hp
  obtain ⟨s, hs, hg⟩ := hp
  obtain ⟨m, hm, hfm⟩ := List.mem_map.1 (mem_dedupFirst _ s hs)
  cases hck : castIntStr s with
  | none => rw [hck] at hg; simp at hg
  | some k =>
    rw [hck] at hg
    simp only [Option.map_some', Option.some_inj] at hg
    refine ⟨m, hm, ?_⟩
    rw [hfm, hck, ← hg]

theorem monthMapLookup_zero (mcs : List (Int × Int)) (k : Int)
    (h : ∀ p ∈ mcs, ¬ p.1 = k) : monthMapLookup mcs k = 0 := by
  unfold monthMapLookup
  have hnil : mcs.filter (fun p => p.1 == k) = [] := by
    rw [List.filter_eq_nil_iff]
    intro p hp
    simpa using h p hp
  rw [hnil]
  rfl

/-- C7: for every valid year (and a store whose matching release dates are
month-parseable, as TMDB dates are), the monthly chart returns exactly 12
entries labelled `Jan..Dec` in calendar order; every month with no matching
stored movie has value 0, and a year with no matching data at all yields 12
all-zero entries. -/
theorem C7_monthly_chart (db : DB) (year : Int)
    (h1 : 1900 ≤ year) (h2 : year ≤ 2100)
    (hcast : ∀ m ∈ monthMatches db year, (castIntStr (monthSub m.releaseDate)).isSome = true) :
    ∃ l, MovieService.GetMoviesByMonth db year = .ok l ∧
      l.length = 12 ∧
      l.map ColumnChartData.label
        = ["Jan", "Feb", "Mar", "Apr", "May", "Jun",
           "Jul", "Aug", "Sep", "Oct", "Nov", "Dec"] ∧
      (∀ k : Nat, k < 12 →
        (∀ m ∈ monthMatches db year,
          castIntStr (monthSub m.releaseDate) ≠ some ((k : Int) + 1)) →
        (l.getD k ⟨"", 0⟩).value = 0) ∧
      (monthMatches db year = [] →
        l = [⟨"Jan", 0⟩, ⟨"Feb", 0⟩, ⟨"Mar", 0⟩, ⟨"Apr", 0⟩, ⟨"May", 0⟩, ⟨"Jun", 0⟩,
             ⟨"Jul", 0⟩, ⟨"Aug", 0⟩, ⟨"Sep", 0⟩, ⟨"Oct", 0⟩, ⟨"Nov", 0⟩, ⟨"Dec", 0⟩]) := by
  have hguard : ¬(year < 1900 ∨ year > 2100) := by omega
  unfold MovieService.GetMoviesByMonth
  rw [if_neg hguard]
  unfold MovieRepository.GetMoviesByMonth
  have hall : ((dedupFirst ((monthMatches db year).map (fun m => monthSub m.releaseDate))).all
      (fun s => (castIntStr s).isSome)) = true := by
    rw [List.all_eq_true]
    intro s hs
    obtain ⟨m, hm, hfm⟩ := List.mem_map.1 (mem_dedupFirst _ s hs)
    exact hfm ▸ hcast m hm
  rw [if_pos hall]
  have hzero : ∀ ki : Int,
      (∀ m ∈ monthMatches db year, castIntStr (monthSub m.releaseDate) ≠ some ki) →
      monthMapLookup (monthGroups db year) ki = 0 := by
    intro ki hno
    apply monthMapLookup_zero
    intro p hp hpk
    obtain ⟨m, hm, hc⟩ := monthGroups_keys db year p hp
    exact hno m hm (by rw [hc, hpk])
  refine ⟨_, rfl, rfl, rfl, ?_, ?_⟩
  · intro k hk hnone
    interval_cases k <;> (norm_num at hnone ⊢; exact hzero _ hnone)
  · intro hmt
    have hg : monthGroups db year = [] := by
      simp [monthGroups, hmt, dedupFirst, dedupFirstAux]
    rw [hg]
    rfl

/-- Witness for C7: an empty store and the year 2024 produce the 12-bucket
all-zero histogram. -/
theorem C7_witness :
    MovieService.GetMoviesByMonth dbEmpty 2024
      = .ok [⟨"Jan", 0⟩, ⟨"Feb", 0⟩, ⟨"Mar", 0⟩, ⟨"Apr", 0⟩, ⟨"May", 0⟩, ⟨"Jun", 0⟩,
             ⟨"Jul", 0⟩, ⟨"Aug", 0⟩, ⟨"Sep", 0⟩, ⟨"Oct", 0⟩, ⟨"Nov", 0⟩, ⟨"Dec", 0⟩] := by
  obtain ⟨l, hok, _, _, _, hempty⟩ :=
    C7_monthly_chart dbEmpty 2024 (by decide) (by decide)
      (by intro m hm; simp [monthMatches, dbEmpty] at hm)
  rw [hok, hempty rfl]

theorem C10_witness :
    ∃ db', MovieService.UpdateMovie db1 1 reqS = .ok db' ∧
      db'.movies.map Movie.createdAt = [3] ∧
      db'.movies.map Movie.tmdbID = [550] ∧
      db'.movies.map Movie.id = [1] ∧
      db'.movies.map Movie.title = ["New Title"] ∧
      db'.movies.map Movie.voteCount = [2] :=
  ⟨_, C10_update_preserves_identity db1 1 reqS mv1 rfl, rfl, rfl, rfl, rfl, rfl⟩

end MovieAPI

namespace MovieAPI

/-! ### Sync pipeline helper lemmas -/

theorem lang_foc_pres (db : DB) (c n : String) :
    ((LanguageRepository.FindOrCreate db c n).1).movies = db.movies ∧
    ((LanguageRepository.FindOrCreate db c n).1).nextMovieID = db.nextMovieID ∧
    ((LanguageRepository.FindOrCreate db c n).1).syncLogs = db.syncLogs := by
  unfold LanguageRepository.FindOrCreate
  split <;> exact ⟨rfl, rfl, rfl⟩

theorem genre_foc_pres (db : DB) (t : Int) (n : String) :
    ((GenreRepository.FindOrCreate db t n).1).movies = db.movies ∧
    ((GenreRepository.FindOrCreate db t n).1).nextMovieID = db.nextMovieID ∧
    ((GenreRepository.FindOrCreate db t n).1).syncLogs = db.syncLogs := by
  unfold GenreRepository.FindOrCreate
  split <;> exact ⟨rfl, rfl, rfl⟩

theorem resolveGenres_pres (env : SyncEnv) (item : TMDBMovieResponse)
    (gids : List Int) (db : DB) :
    ((resolveGenres env item gids db).1).movies = db.movies ∧
    ((resolveGenres env item gids db).1).nextMovieID = db.nextMovieID ∧
    ((resolveGenres env item gids db).1).syncLogs = db.syncLogs := by
  induction gids generalizing db with
  | nil => exact ⟨rfl, rfl, rfl⟩
  | cons g rest ih =>
    unfold resolveGenres
    split
    · exact ih db
    · obtain ⟨h1, h2, h3⟩ := ih (GenreRepository.FindOrCreate db g (getGenreName g)).1
      obtain ⟨g1, g2, g3⟩ := genre_foc_pres db g (getGenreName g)
      exact ⟨h1.trans g1, h2.trans g2, h3.trans g3⟩

theorem sync_db2_pres (env : SyncEnv) (item : TMDBMovieResponse) (db : DB) :
    ((resolveGenres env item item.genreIDs
       (LanguageRepository.FindOrCreate db item.originalLanguage
         (getLanguageName item.originalLanguage)).1).1).movies = db.movies ∧
    ((resolveGenres env item item.genreIDs
       (LanguageRepository.FindOrCreate db item.originalLanguage
         (getLanguageName item.originalLanguage)).1).1).nextMovieID = db.nextMovieID ∧
    ((resolveGenres env item item.genreIDs
       (LanguageRepository.FindOrCreate db item.originalLanguage
         (getLanguageName item.originalLanguage)).1).1).syncLogs = db.syncLogs := by
  obtain ⟨a1, a2, a3⟩ := lang_foc_pres db item.originalLanguage (getLanguageName item.originalLanguage)
  obtain ⟨b1, b2, b3⟩ := resolveGenres_pres env item item.genreIDs
    (LanguageRepository.FindOrCreate db item.originalLanguage
      (getLanguageName item.originalLanguage)).1
  exact ⟨b1.trans a1, b2.trans a2, b3.trans a3⟩

theorem syncItem_lang_skip (env : SyncEnv) (st : SyncState) (item : TMDBMovieResponse)
    (hl : env.langFail item = true) : syncItem env st item = st := by
  unfold syncItem
  rw [if_pos hl]

theorem syncItem_persist_skip (env : SyncEnv) (st : SyncState) (item : TMDBMovieResponse)
    (hl : env.langFail item = false) (hf : env.findFail item = false)
    (hp : env.persistFail item = true) :
    (syncItem env st item).added = st.added ∧ (syncItem env st item).updated = st.updated ∧
    (syncItem env st item).db.movies = st.db.movies ∧
    (syncItem env st item).db.syncLogs = st.db.syncLogs ∧
    (syncItem env st item).db.nextMovieID = st.db.nextMovieID := by
  have h := sync_db2_pres env item st.db
  simp only [syncItem, hl, hf, hp, Bool.false_eq_true, if_false, if_true]
  split
  · exact ⟨by trivial, by trivial, h.1, h.2.2, h.2.1⟩
  · exact ⟨by trivial, by trivial, h.1, h.2.2, h.2.1⟩

theorem syncItem_nofault_counts (env : SyncEnv) (st : SyncState) (item : TMDBMovieResponse)
    (hl : env.langFail item = false) (hf : env.findFail item = false)
    (hp : env.persistFail item = false) :
    ((syncItem env st item).added = st.added + 1 ∧ (syncItem env st item).updated = st.updated) ∨
    ((syncItem env st item).added = st.added ∧ (syncItem env st item).updated = st.updated + 1) := by
  simp only [syncItem, hl, hf, hp, Bool.false_eq_true, if_false]
  split
  · exact Or.inl ⟨by trivial, by trivial⟩
  · exact Or.inr ⟨by trivial, by trivial⟩

theorem syncItem_syncLogs (env : SyncEnv) (st : SyncState) (item : TMDBMovieResponse) :
    (syncItem env st item).db.syncLogs = st.db.syncLogs := by
  have h := sync_db2_pres env item st.db
  cases hl : env.langFail item with
  | true => rw [syncItem_lang_skip env st item hl]
  | false =>
    simp only [syncItem, hl, Bool.false_eq_true, if_false]
    split
    · exact h.2.2
    · split
      · split
        · exact h.2.2
        · exact h.2.2
      · split
        · exact h.2.2
        · exact h.2.2

theorem syncItem_len (env : SyncEnv) (st : SyncState) (item : TMDBMovieResponse) :
    (syncItem env st item).db.movies.length + st.added
      = st.db.movies.length + (syncItem env st item).added := by
  have h := (sync_db2_pres env item st.db).1
  cases hl : env.langFail item with
  | true => rw [syncItem_lang_skip env st item hl]
  | false =>
    simp only [syncItem, hl, Bool.false_eq_true, if_false]
    split
    · simp [h]
    · split
      · split
        · simp [h]
        · simp only [MovieRepository.Create]
          rw [List.length_append, h]
          simp only [List.length_singleton]
          omega
      · split
        · simp [h]
        · simp only [MovieRepository.Update]
          rw [List.length_map, h]

theorem syncItem_find_skip (env : SyncEnv) (st : SyncState) (item : TMDBMovieResponse)
    (hl : env.langFail item = false) (hf : env.findFail item = true) :
    (syncItem env st item).added = st.added ∧ (syncItem env st item).updated = st.updated ∧
    (syncItem env st item).db.movies = st.db.movies ∧
    (syncItem env st item).db.syncLogs = st.db.syncLogs ∧
    (syncItem env st item).db.nextMovieID = st.db.nextMovieID := by
  have h := sync_db2_pres env item st.db
  simp only [syncItem, hl, hf, Bool.false_eq_true, if_false, if_true]
  exact ⟨by trivial, by trivial, h.1, h.2.2, h.2.1⟩

end MovieAPI

namespace MovieAPI

theorem foldl_syncItem_syncLogs (env : SyncEnv) (items : List TMDBMovieResponse) (st : SyncState) :
    (items.foldl (syncItem env) st).db.syncLogs = st.db.syncLogs := by
  induction items generalizing st with
  | nil => rfl
  | cons it rest ih =>
    rw [List.foldl_cons, ih (syncItem env st it), syncItem_syncLogs]

theorem foldl_syncItem_len (env : SyncEnv) (items : List TMDBMovieResponse) (st : SyncState) :
    (items.foldl (syncItem env) st).db.movies.length + st.added
      = st.db.movies.length + (items.foldl (syncItem env) st).added := by
  induction items generalizing st with
  | nil => rfl
  | cons it rest ih =>
    rw [List.foldl_cons]
    have h1 := syncItem_len env st it
    have h2 := ih (syncItem env st it)
    omega

theorem syncPagesLoop_ok (env : SyncEnv) (pages : List Nat) :
    ∀ st fetched, (∀ p ∈ pages, ∃ items, env.fetch p = .ok items) →
    ∃ st', syncPagesLoop env pages st fetched = .inl (st', fetched ++ pages) ∧
      st'.db.syncLogs = st.db.syncLogs ∧
      st'.db.movies.length + st.added = st.db.movies.length + st'.added := by
  induction pages with
  | nil =>
    intro st fetched _
    exact ⟨st, by simp [syncPagesLoop], rfl, rfl⟩
  | cons p rest ih =>
    intro st fetched hok
    obtain ⟨items, hfetch⟩ := hok p (List.mem_cons_self p rest)
    obtain ⟨st', hloop, hlogs, hlen⟩ :=
      ih (items.foldl (syncItem env) st) (fetched ++ [p])
        (fun q hq => hok q (List.mem_cons_of_mem p hq))
    refine ⟨st', ?_, ?_, ?_⟩
    · simp only [syncPagesLoop, hfetch]
      rw [hloop]
      simp [List.append_assoc]
    · rw [hlogs, foldl_syncItem_syncLogs]
    · have h3 := foldl_syncItem_len env items st
      omega

theorem syncPagesLoop_err (env : SyncEnv) (n : Nat) :
    ∀ (a : Nat) (st : SyncState) (fetched : List Nat) (k : Nat) (e : String),
    a ≤ k → k < a + n →
    (∀ j, a ≤ j → j < k → ∃ items, env.fetch j = .ok items) →
    env.fetch k = .error e →
    ∃ st', syncPagesLoop env (List.range' a n) st fetched
        = .inr (k, e, st', fetched ++ List.range' a (k + 1 - a)) ∧
      st'.db.syncLogs = st.db.syncLogs := by
  induction n with
  | zero =>
    intro a st fetched k e h1 h2 _ _
    exact absurd h2 (by omega)
  | succ n ih =>
    intro a st fetched k e h1 h2 hok herr
    have hr : List.range' a (n + 1) = a :: List.range' (a + 1) n := rfl
    rcases Nat.eq_or_lt_of_le h1 with hak | hak
    · subst hak
      rw [hr]
      simp only [syncPagesLoop, herr]
      have h4 : a + 1 - a = 1 := by omega
      rw [h4]
      exact ⟨st, rfl, rfl⟩
    · obtain ⟨items, hfetch⟩ := hok a (Nat.le_refl a) hak
      rw [hr]
      simp only [syncPagesLoop, hfetch]
      obtain ⟨st', hloop, hlogs⟩ :=
        ih (a + 1) (items.foldl (syncItem env) st) (fetched ++ [a]) k e
          (by omega) (by omega) (fun j hj1 hj2 => hok j (by omega) hj2) herr
      refine ⟨st', ?_, hlogs.trans (foldl_syncItem_syncLogs env items st)⟩
      rw [hloop]
      have h5 : k + 1 - a = (k + 1 - (a + 1)) + 1 := by omega
      rw [h5, List.append_assoc]
      rfl

theorem find?_append_none {α : Type} (p : α → Bool) (l1 l2 : List α)
    (h : l1.find? p = none) : (l1 ++ l2).find? p = l2.find? p := by
  rw [List.find?_append, h, Option.none_or]

theorem findByTMDBID_movies_congr (db1 db2 : DB) (t : Int)
    (h : db1.movies = db2.movies) :
    MovieRepository.FindByTMDBID db1 t = MovieRepository.FindByTMDBID db2 t := by
  unfold MovieRepository.FindByTMDBID
  rw [h]

end MovieAPI

namespace MovieAPI

theorem syncItem_create_eq (env : SyncEnv) (st : SyncState) (item : TMDBMovieResponse)
    (hl : env.langFail item = false) (hf : env.findFail item = false)
    (hp : env.persistFail item = false)
    (hex : MovieRepository.FindByTMDBID st.db item.id = none) :
    syncItem env st item =
      { db := (MovieRepository.Create
          (resolveGenres env item item.genreIDs
            (LanguageRepository.FindOrCreate st.db item.originalLanguage
              (getLanguageName item.originalLanguage)).1).1
          { buildSyncMovie item (LanguageRepository.FindOrCreate st.db item.originalLanguage
              (getLanguageName item.originalLanguage)).2.id with
            genres := (resolveGenres env item item.genreIDs
              (LanguageRepository.FindOrCreate st.db item.originalLanguage
                (getLanguageName item.originalLanguage)).1).2 }).1,
        added := st.added + 1, updated := st.updated } := by
  have hex' : MovieRepository.FindByTMDBID
      (resolveGenres env item item.genreIDs
        (LanguageRepository.FindOrCreate st.db item.originalLanguage
          (getLanguageName item.originalLanguage)).1).1
      (buildSyncMovie item (LanguageRepository.FindOrCreate st.db item.originalLanguage
          (getLanguageName item.originalLanguage)).2.id).tmdbID = none := by
    rw [findByTMDBID_movies_congr _ st.db _ (sync_db2_pres env item st.db).1]
    exact hex
  simp only [syncItem, hl, hf, hp, Bool.false_eq_true, if_false]
  rw [hex']

theorem syncItem_update_eq (env : SyncEnv) (st : SyncState) (item : TMDBMovieResponse)
    (ex : Movie)
    (hl : env.langFail item = false) (hf : env.findFail item = false)
    (hp : env.persistFail item = false)
    (hex : MovieRepository.FindByTMDBID st.db item.id = some ex) :
    syncItem env st item =
      { db := MovieRepository.Update
          (resolveGenres env item item.genreIDs
            (LanguageRepository.FindOrCreate st.db item.originalLanguage
              (getLanguageName item.originalLanguage)).1).1
          { buildSyncMovie item (LanguageRepository.FindOrCreate st.db item.originalLanguage
              (getLanguageName item.originalLanguage)).2.id with
            genres := (resolveGenres env item item.genreIDs
              (LanguageRepository.FindOrCreate st.db item.originalLanguage
                (getLanguageName item.originalLanguage)).1).2,
            id := ex.id, createdAt := ex.createdAt },
        added := st.added, updated := st.updated + 1 } := by
  have hex' : MovieRepository.FindByTMDBID
      (resolveGenres env item item.genreIDs
        (LanguageRepository.FindOrCreate st.db item.originalLanguage
          (getLanguageName item.originalLanguage)).1).1
      (buildSyncMovie item (LanguageRepository.FindOrCreate st.db item.originalLanguage
          (getLanguageName item.originalLanguage)).2.id).tmdbID = some ex := by
    rw [findByTMDBID_movies_congr _ st.db _ (sync_db2_pres env item st.db).1]
    exact hex
  simp only [syncItem, hl, hf, hp, Bool.false_eq_true, if_false]
  rw [hex']

end MovieAPI

namespace MovieAPI

theorem sync_run_ok (env : SyncEnv) (db : DB) (pages : Int)
    (hok : ∀ p ∈ List.range' 1 (clampPages pages), ∃ items, env.fetch p = .ok items) :
    (MovieService.SyncMoviesFromTMDB env db pages).err = none ∧
    (MovieService.SyncMoviesFromTMDB env db pages).log.status = "success" ∧
    (MovieService.SyncMoviesFromTMDB env db pages).db.syncLogs
      = db.syncLogs ++ [(MovieService.SyncMoviesFromTMDB env db pages).log] ∧
    (MovieService.SyncMoviesFromTMDB env db pages).db.movies.length
      = db.movies.length + (MovieService.SyncMoviesFromTMDB env db pages).log.moviesAdded := by
  obtain ⟨st', hloop, hlogs, hlen⟩ :=
    syncPagesLoop_ok env (List.range' 1 (clampPages pages)) ⟨db, 0, 0⟩ [] hok
  have hlogs' : st'.db.syncLogs = db.syncLogs := hlogs
  have hlen' : st'.db.movies.length + 0 = db.movies.length + st'.added := hlen
  unfold MovieService.SyncMoviesFromTMDB
  rw [hloop]
  refine ⟨rfl, rfl, ?_, ?_⟩
  · show st'.db.syncLogs ++ _ = db.syncLogs ++ _
    rw [hlogs']
  · show st'.db.movies.length = db.movies.length + st'.added
    omega

/-- C2: when the fetch of page `k` (the first failing page within the
clamped request) errors, the run attempts exactly pages `1..k` and no page
after `k`, persists one `SyncLog` row with status `"failed"` whose error
message embeds the fetch error (and so is non-empty), and returns that log
together with the error. -/
theorem C2_fetch_failure (env : SyncEnv) (db : DB) (pages : Int) (k : Nat) (e : String)
    (hk1 : 1 ≤ k) (hk2 : k ≤ clampPages pages)
    (hok : ∀ j, 1 ≤ j → j < k → ∃ items, env.fetch j = .ok items)
    (herr : env.fetch k = .error e) :
    (MovieService.SyncMoviesFromTMDB env db pages).err = some e ∧
    (MovieService.SyncMoviesFromTMDB env db pages).log.status = "failed" ∧
    (MovieService.SyncMoviesFromTMDB env db pages).log.errorMessage
      = "failed to fetch page " ++ toString k ++ ": " ++ e ∧
    (MovieService.SyncMoviesFromTMDB env db pages).log.errorMessage ≠ "" ∧
    (MovieService.SyncMoviesFromTMDB env db pages).db.syncLogs
      = db.syncLogs ++ [(MovieService.SyncMoviesFromTMDB env db pages).log] ∧
    (MovieService.SyncMoviesFromTMDB env db pages).fetched = List.range' 1 k := by
  obtain ⟨st', hloop, hlogs⟩ :=
    syncPagesLoop_err env (clampPages pages) 1 ⟨db, 0, 0⟩ [] k e hk1 (by omega) hok herr
  have hlogs' : st'.db.syncLogs = db.syncLogs := hlogs
  unfold MovieService.SyncMoviesFromTMDB
  rw [hloop]
  refine ⟨rfl, rfl, rfl, ?_, ?_, ?_⟩
  · intro hempty
    have h0 := congrArg String.length hempty
    rw [String.length_append, String.length_append, String.length_append] at h0
    have ha : 0 < String.length "failed to fetch page " := by decide
    have hb : String.length "" = 0 := rfl
    omega
  · show st'.db.syncLogs ++ _ = db.syncLogs ++ _
    rw [hlogs']
  · show [] ++ List.range' 1 (k + 1 - 1) = List.range' 1 k
    have h4 : k + 1 - 1 = k := by omega
    rw [h4, List.nil_append]

/-- Witness for C2: three pages requested, page 1 fetches fine, page 2
fails — the run stops after page 2 (pages attempted: `[1, 2]`), logs status
`"failed"` with a non-empty message and returns the error. -/
theorem C2_witness :
    (MovieService.SyncMoviesFromTMDB envPage2Fails dbEmpty 3).err = some "connection refused" ∧
    (MovieService.SyncMoviesFromTMDB envPage2Fails dbEmpty 3).log.status = "failed" ∧
    (MovieService.SyncMoviesFromTMDB envPage2Fails dbEmpty 3).log.errorMessage ≠ "" ∧
    (MovieService.SyncMoviesFromTMDB envPage2Fails dbEmpty 3).fetched = [1, 2] := by
  obtain ⟨h1, h2, _, h4, _, h6⟩ :=
    C2_fetch_failure envPage2Fails dbEmpty 3 2 "connection refused" (by decide) (by decide)
      (by
        intro j hj1 hj2
        have hje : j = 1 := by omega
        subst hje
        exact ⟨[], rfl⟩)
      rfl
  exact ⟨h1, h2, h4, h6.trans (by decide)⟩

/-- C4: when every page fetch succeeds, the run persists exactly one
`SyncLog` row (appended to the log table), returns no error, marks the log
`"success"`, and the store grows by exactly `moviesAdded` rows (inserts add
one row each; updates and skipped items add none). -/
theorem C4_sync_success (env : SyncEnv) (db : DB) (pages : Int)
    (hok : ∀ p ∈ List.range' 1 (clampPages pages), ∃ items, env.fetch p = .ok items) :
    (MovieService.SyncMoviesFromTMDB env db pages).err = none ∧
    (MovieService.SyncMoviesFromTMDB env db pages).log.status = "success" ∧
    (MovieService.SyncMoviesFromTMDB env db pages).db.syncLogs
      = db.syncLogs ++ [(MovieService.SyncMoviesFromTMDB env db pages).log] ∧
    (MovieService.SyncMoviesFromTMDB env db pages).db.movies.length
      = db.movies.length + (MovieService.SyncMoviesFromTMDB env db pages).log.moviesAdded :=
  sync_run_ok env db pages hok

/-- Witness for C4 and the spec's example: syncing 1 page with 2 new movies
into an empty store yields one log row with `added = 2`, `updated = 0`,
status `"success"`. -/
theorem C4_witness :
    (MovieService.SyncMoviesFromTMDB envTwoNew dbEmpty 1).err = none ∧
    (MovieService.SyncMoviesFromTMDB envTwoNew dbEmpty 1).log.status = "success" ∧
    (MovieService.SyncMoviesFromTMDB envTwoNew dbEmpty 1).db.syncLogs
      = dbEmpty.syncLogs ++ [(MovieService.SyncMoviesFromTMDB envTwoNew dbEmpty 1).log] ∧
    (MovieService.SyncMoviesFromTMDB envTwoNew dbEmpty 1).log.moviesAdded = 2 ∧
    (MovieService.SyncMoviesFromTMDB envTwoNew dbEmpty 1).log.moviesUpdated = 0 := by
  obtain ⟨h1, h2, h3, _⟩ := C4_sync_success envTwoNew dbEmpty 1
    (by
      intro p hp
      have hc : clampPages 1 = 1 := by decide
      rw [hc] at hp
      have hp1 : p = 1 := by simpa using hp
      subst hp1
      exact ⟨[itemA, itemB], rfl⟩)
  exact ⟨h1, h2, h3, rfl, rfl⟩

/-- C3 counterexample: with one fetched item whose (only) genre resolution
fails and no other fault, the run still persists and counts the movie:
`added = 1`, the stored row exists with its genre list empty — the item is
**not** skipped, contradicting the claim that a genre-resolution failure
skips the item. -/
theorem C3_counterexample :
    (MovieService.SyncMoviesFromTMDB envGenreFail dbEmpty 1).log.moviesAdded = 1 ∧
    (MovieService.SyncMoviesFromTMDB envGenreFail dbEmpty 1).log.moviesAdded ≠ 0 ∧
    (MovieService.SyncMoviesFromTMDB envGenreFail dbEmpty 1).db.movies.map
      (fun m => (m.tmdbID, m.genres)) = [(550, [])] ∧
    envGenreFail.genreFail itemA 28 = true := by
  exact ⟨rfl, by decide, rfl, rfl⟩

/-- C3 (amended): per-item failures never abort the run (an all-fetches-ok
run still ends with no error and status `"success"`); a language-resolution
failure skips the item entirely; a lookup or persistence failure skips the
item without counting it (the movie table is untouched); but a
genre-resolution failure skips only that genre — an item whose language,
lookup and persistence succeed is always counted exactly once, whatever its
genre failures. -/
theorem C3_item_failure_semantics :
    (∀ (env : SyncEnv) (db : DB) (pages : Int),
      (∀ p ∈ List.range' 1 (clampPages pages), ∃ items, env.fetch p = .ok items) →
      (MovieService.SyncMoviesFromTMDB env db pages).err = none ∧
      (MovieService.SyncMoviesFromTMDB env db pages).log.status = "success") ∧
    (∀ (env : SyncEnv) (st : SyncState) (item : TMDBMovieResponse),
      env.langFail item = true → syncItem env st item = st) ∧
    (∀ (env : SyncEnv) (st : SyncState) (item : TMDBMovieResponse),
      env.langFail item = false → env.findFail item = true →
      (syncItem env st item).added = st.added ∧ (syncItem env st item).updated = st.updated ∧
      (syncItem env st item).db.movies = st.db.movies) ∧
    (∀ (env : SyncEnv) (st : SyncState) (item : TMDBMovieResponse),
      env.langFail item = false → env.findFail item = false → env.persistFail item = true →
      (syncItem env st item).added = st.added ∧ (syncItem env st item).updated = st.updated ∧
      (syncItem env st item).db.movies = st.db.movies) ∧
    (∀ (env : SyncEnv) (st : SyncState) (item : TMDBMovieResponse),
      env.langFail item = false → env.findFail item = false → env.persistFail item = false →
      (syncItem env st item).added + (syncItem env st item).updated
        = st.added + st.updated + 1) := by
  refine ⟨?_, ?_, ?_, ?_, ?_⟩
  · intro env db pages hok
    exact ⟨(sync_run_ok env db pages hok).1, (sync_run_ok env db pages hok).2.1⟩
  · intro env st item hl
    exact syncItem_lang_skip env st item hl
  · intro env st item hl hf
    obtain ⟨h1, h2, h3, _, _⟩ := syncItem_find_skip env st item hl hf
    exact ⟨h1, h2, h3⟩
  · intro env st item hl hf hp
    obtain ⟨h1, h2, h3, _, _⟩ := syncItem_persist_skip env st item hl hf hp
    exact ⟨h1, h2, h3⟩
  · intro env st item hl hf hp
    rcases syncItem_nofault_counts env st item hl hf hp with ⟨h1, h2⟩ | ⟨h1, h2⟩ <;> omega

/-- Witness for the amended C3: a language failure leaves the state
untouched, and a run of such failing items still succeeds. -/
theorem C3_witness :
    syncItem envLangFail ⟨dbEmpty, 0, 0⟩ itemA = ⟨dbEmpty, 0, 0⟩ ∧
    (MovieService.SyncMoviesFromTMDB envLangFail dbEmpty 1).err = none ∧
    (MovieService.SyncMoviesFromTMDB envLangFail dbEmpty 1).log.status = "success" := by
  refine ⟨C3_item_failure_semantics.2.1 envLangFail ⟨dbEmpty, 0, 0⟩ itemA rfl, ?_, ?_⟩
  · exact (C3_item_failure_semantics.1 envLangFail dbEmpty 1 (fun p hp => ⟨[], rfl⟩)).1
  · exact (C3_item_failure_semantics.1 envLangFail dbEmpty 1 (fun p hp => ⟨[], rfl⟩)).2

end MovieAPI

namespace MovieAPI

theorem syncItem_upsert_existing (env : SyncEnv) (st : SyncState) (item : TMDBMovieResponse) (ex : Movie)
    (hnf : noItemFaults env item)
    (hex : MovieRepository.FindByTMDBID st.db item.id = some ex) :
    (syncItem env st item).added = st.added ∧
    (syncItem env st item).updated = st.updated + 1 ∧
    (syncItem env st item).db.movies.length = st.db.movies.length ∧
    ∃ lid gs t, (syncItem env st item).db.movies
      = st.db.movies.map (fun x =>
          if x.id = ex.id
          then { id := ex.id, tmdbID := item.id, title := item.title,
                 originalTitle := item.originalTitle, overview := item.overview,
                 releaseDate := item.releaseDate, posterPath := item.posterPath,
                 backdropPath := item.backdropPath, voteAverage := item.voteAverage,
                 voteCount := item.voteCount, popularity := item.popularity,
                 adult := item.adult, languageID := some lid, genres := gs,
                 createdAt := ex.createdAt, updatedAt := t }
          else x) := by
  obtain ⟨hl, hg, hf, hp⟩ := hnf
  have h := syncItem_update_eq env st item ex hl hf hp hex
  refine ⟨by rw [h], by rw [h], ?_, ?_⟩
  · rw [h]
    simp only [MovieRepository.Update]
    rw [List.length_map, (sync_db2_pres env item st.db).1]
  · refine ⟨(LanguageRepository.FindOrCreate st.db item.originalLanguage
        (getLanguageName item.originalLanguage)).2.id,
      (resolveGenres env item item.genreIDs
        (LanguageRepository.FindOrCreate st.db item.originalLanguage
          (getLanguageName item.originalLanguage)).1).2,
      (resolveGenres env item item.genreIDs
        (LanguageRepository.FindOrCreate st.db item.originalLanguage
          (getLanguageName item.originalLanguage)).1).1.time, ?_⟩
    rw [h]
    simp only [MovieRepository.Update]
    rw [(sync_db2_pres env item st.db).1]
    rfl

end MovieAPI


namespace MovieAPI

theorem update_map_append_fresh (l : List Movie) (r1 m2 : Movie) (t : Nat)
    (hfr : ∀ m ∈ l, m.id ≠ r1.id) (hid : r1.id = m2.id) :
    (l ++ [r1]).map (fun x => if x.id = m2.id then { m2 with updatedAt := t } else x)
      = l ++ [{ m2 with updatedAt := t }] := by
  rw [List.map_append]
  have hcg : ∀ m ∈ l, (if m.id = m2.id then { m2 with updatedAt := t } else m) = m := by
    intro m hm
    exact if_neg (fun h => hfr m hm (h.trans hid.symm))
  rw [List.map_congr_left hcg]
  simp only [List.map_cons, List.map_nil]
  rw [if_pos hid]
  simp

theorem syncItem_upsert_twice (env : SyncEnv) (db : DB) (item1 item2 : TMDBMovieResponse)
    (hnf1 : noItemFaults env item1) (hnf2 : noItemFaults env item2)
    (hsame : item2.id = item1.id)
    (hfresh : ∀ m ∈ db.movies, m.id < db.nextMovieID)
    (hnone : ∀ m ∈ db.movies, m.tmdbID ≠ item1.id) :
    ∃ c u1 u2 lid1 lid2 gs1 gs2,
      (syncItem env ⟨db, 0, 0⟩ item1).added = 1 ∧
      (syncItem env ⟨db, 0, 0⟩ item1).updated = 0 ∧
      (syncItem env ⟨db, 0, 0⟩ item1).db.movies
        = db.movies ++
          [{ id := db.nextMovieID, tmdbID := item1.id, title := item1.title,
             originalTitle := item1.originalTitle, overview := item1.overview,
             releaseDate := item1.releaseDate, posterPath := item1.posterPath,
             backdropPath := item1.backdropPath, voteAverage := item1.voteAverage,
             voteCount := item1.voteCount, popularity := item1.popularity,
             adult := item1.adult, languageID := some lid1, genres := gs1,
             createdAt := c, updatedAt := u1 }] ∧
      (syncItem env (syncItem env ⟨db, 0, 0⟩ item1) item2).added = 1 ∧
      (syncItem env (syncItem env ⟨db, 0, 0⟩ item1) item2).updated = 1 ∧
      (syncItem env (syncItem env ⟨db, 0, 0⟩ item1) item2).db.movies
        = db.movies ++
          [{ id := db.nextMovieID, tmdbID := item2.id, title := item2.title,
             originalTitle := item2.originalTitle, overview := item2.overview,
             releaseDate := item2.releaseDate, posterPath := item2.posterPath,
             backdropPath := item2.backdropPath, voteAverage := item2.voteAverage,
             voteCount := item2.voteCount, popularity := item2.popularity,
             adult := item2.adult, languageID := some lid2, genres := gs2,
             createdAt := c, updatedAt := u2 }] ∧
      ((syncItem env (syncItem env ⟨db, 0, 0⟩ item1) item2).db.movies.filter
          (fun m => m.tmdbID == item1.id)).length = 1 := by
  obtain ⟨hl1, hg1, hf1, hp1⟩ := hnf1
  obtain ⟨hl2, hg2, hf2, hp2⟩ := hnf2
  have hfind0 : MovieRepository.FindByTMDBID db item1.id = none := by
    unfold MovieRepository.FindByTMDBID
    rw [List.find?_eq_none]
    intro m hm
    simpa using hnone m hm
  have h1 := syncItem_create_eq env ⟨db, 0, 0⟩ item1 hl1 hf1 hp1 hfind0
  dsimp only at h1
  have ha1 : (syncItem env ⟨db, 0, 0⟩ item1).added = 1 := by rw [h1]
  have hu1 : (syncItem env ⟨db, 0, 0⟩ item1).updated = 0 := by rw [h1]
  have hm1 : (syncItem env ⟨db, 0, 0⟩ item1).db.movies
      = db.movies ++
        [{ id := db.nextMovieID, tmdbID := item1.id, title := item1.title,
           originalTitle := item1.originalTitle, overview := item1.overview,
           releaseDate := item1.releaseDate, posterPath := item1.posterPath,
           backdropPath := item1.backdropPath, voteAverage := item1.voteAverage,
           voteCount := item1.voteCount, popularity := item1.popularity,
           adult := item1.adult,
           languageID := some (LanguageRepository.FindOrCreate db item1.originalLanguage
             (getLanguageName item1.originalLanguage)).2.id,
           genres := (resolveGenres env item1 item1.genreIDs
             (LanguageRepository.FindOrCreate db item1.originalLanguage
               (getLanguageName item1.originalLanguage)).1).2,
           createdAt := (resolveGenres env item1 item1.genreIDs
             (LanguageRepository.FindOrCreate db item1.originalLanguage
               (getLanguageName item1.originalLanguage)).1).1.time,
           updatedAt := (resolveGenres env item1 item1.genreIDs
             (LanguageRepository.FindOrCreate db item1.originalLanguage
               (getLanguageName item1.originalLanguage)).1).1.time }] := by
    rw [h1]
    simp only [MovieRepository.Create]
    rw [(sync_db2_pres env item1 db).1, (sync_db2_pres env item1 db).2.1]
    rfl
  have hfind1 : MovieRepository.FindByTMDBID (syncItem env ⟨db, 0, 0⟩ item1).db item2.id
      = some
        { id := db.nextMovieID, tmdbID := item1.id, title := item1.title,
          originalTitle := item1.originalTitle, overview := item1.overview,
          releaseDate := item1.releaseDate, posterPath := item1.posterPath,
          backdropPath := item1.backdropPath, voteAverage := item1.voteAverage,
          voteCount := item1.voteCount, popularity := item1.popularity,
          adult := item1.adult,
          languageID := some (LanguageRepository.FindOrCreate db item1.originalLanguage
            (getLanguageName item1.originalLanguage)).2.id,
          genres := (resolveGenres env item1 item1.genreIDs
            (LanguageRepository.FindOrCreate db item1.originalLanguage
              (getLanguageName item1.originalLanguage)).1).2,
          createdAt := (resolveGenres env item1 item1.genreIDs
            (LanguageRepository.FindOrCreate db item1.originalLanguage
              (getLanguageName item1.originalLanguage)).1).1.time,
          updatedAt := (resolveGenres env item1 item1.genreIDs
            (LanguageRepository.FindOrCreate db item1.originalLanguage
              (getLanguageName item1.originalLanguage)).1).1.time } := by
    unfold MovieRepository.FindByTMDBID
    rw [hm1, hsame]
    rw [find?_append_none _ db.movies _
      (by
        rw [List.find?_eq_none]
        intro m hm
        simpa using hnone m hm)]
    simp [List.find?]
  have h2 := syncItem_update_eq env (syncItem env ⟨db, 0, 0⟩ item1) item2 _ hl2 hf2 hp2 hfind1
  have ha2 : (syncItem env (syncItem env ⟨db, 0, 0⟩ item1) item2).added = 1 := by
    rw [h2]
    exact ha1
  have hu2 : (syncItem env (syncItem env ⟨db, 0, 0⟩ item1) item2).updated = 1 := by
    rw [h2]
    show (syncItem env ⟨db, 0, 0⟩ item1).updated + 1 = 1
    rw [hu1]
  have hm2 : (syncItem env (syncItem env ⟨db, 0, 0⟩ item1) item2).db.movies
      = db.movies ++
        [{ id := db.nextMovieID, tmdbID := item2.id, title := item2.title,
           originalTitle := item2.originalTitle, overview := item2.overview,
           releaseDate := item2.releaseDate, posterPath := item2.posterPath,
           backdropPath := item2.backdropPath, voteAverage := item2.voteAverage,
           voteCount := item2.voteCount, popularity := item2.popularity,
           adult := item2.adult,
           languageID := some (LanguageRepository.FindOrCreate
             (syncItem env ⟨db, 0, 0⟩ item1).db item2.originalLanguage
             (getLanguageName item2.originalLanguage)).2.id,
           genres := (resolveGenres env item2 item2.genreIDs
             (LanguageRepository.FindOrCreate (syncItem env ⟨db, 0, 0⟩ item1).db
               item2.originalLanguage (getLanguageName item2.originalLanguage)).1).2,
           createdAt := (resolveGenres env item1 item1.genreIDs
             (LanguageRepository.FindOrCreate db item1.originalLanguage
               (getLanguageName item1.originalLanguage)).1).1.time,
           updatedAt := (resolveGenres env item2 item2.genreIDs
             (LanguageRepository.FindOrCreate (syncItem env ⟨db, 0, 0⟩ item1).db
               item2.originalLanguage (getLanguageName item2.originalLanguage)).1).1.time }] := by
    rw [h2]
    simp only [MovieRepository.Update]
    rw [(sync_db2_pres env item2 (syncItem env ⟨db, 0, 0⟩ item1).db).1, hm1]
    exact update_map_append_fresh db.movies
      { id := db.nextMovieID, tmdbID := item1.id, title := item1.title,
        originalTitle := item1.originalTitle, overview := item1.overview,
        releaseDate := item1.releaseDate, posterPath := item1.posterPath,
        backdropPath := item1.backdropPath, voteAverage := item1.voteAverage,
        voteCount := item1.voteCount, popularity := item1.popularity,
        adult := item1.adult,
        languageID := some (LanguageRepository.FindOrCreate db item1.originalLanguage
          (getLanguageName item1.originalLanguage)).2.id,
        genres := (resolveGenres env item1 item1.genreIDs
          (LanguageRepository.FindOrCreate db item1.originalLanguage
            (getLanguageName item1.originalLanguage)).1).2,
        createdAt := (resolveGenres env item1 item1.genreIDs
          (LanguageRepository.FindOrCreate db item1.originalLanguage
            (getLanguageName item1.originalLanguage)).1).1.time,
        updatedAt := (resolveGenres env item1 item1.genreIDs
          (LanguageRepository.FindOrCreate db item1.originalLanguage
            (getLanguageName item1.originalLanguage)).1).1.time }
      { id := db.nextMovieID, tmdbID := item2.id, title := item2.title,
        originalTitle := item2.originalTitle, overview := item2.overview,
        releaseDate := item2.releaseDate, posterPath := item2.posterPath,
        backdropPath := item2.backdropPath, voteAverage := item2.voteAverage,
        voteCount := item2.voteCount, popularity := item2.popularity,
        adult := item2.adult,
        languageID := some (LanguageRepository.FindOrCreate
          (syncItem env ⟨db, 0, 0⟩ item1).db item2.originalLanguage
          (getLanguageName item2.originalLanguage)).2.id,
        genres := (resolveGenres env item2 item2.genreIDs
          (LanguageRepository.FindOrCreate (syncItem env ⟨db, 0, 0⟩ item1).db
            item2.originalLanguage (getLanguageName item2.originalLanguage)).1).2,
        createdAt := (resolveGenres env item1 item1.genreIDs
          (LanguageRepository.FindOrCreate db item1.originalLanguage
            (getLanguageName item1.originalLanguage)).1).1.time,
        updatedAt := 0 }
      (resolveGenres env item2 item2.genreIDs
        (LanguageRepository.FindOrCreate (syncItem env ⟨db, 0, 0⟩ item1).db
          item2.originalLanguage (getLanguageName item2.originalLanguage)).1).1.time
      (by
        intro m hm heq
        have h' : m.id = db.nextMovieID := heq
        have := hfresh m hm
        omega)
      rfl
  refine ⟨(resolveGenres env item1 item1.genreIDs
      (LanguageRepository.FindOrCreate db item1.originalLanguage
        (getLanguageName item1.originalLanguage)).1).1.time,
    (resolveGenres env item1 item1.genreIDs
      (LanguageRepository.FindOrCreate db item1.originalLanguage
        (getLanguageName item1.originalLanguage)).1).1.time,
    (resolveGenres env item2 item2.genreIDs
      (LanguageRepository.FindOrCreate (syncItem env ⟨db, 0, 0⟩ item1).db
        item2.originalLanguage (getLanguageName item2.originalLanguage)).1).1.time,
    (LanguageRepository.FindOrCreate db item1.originalLanguage
      (getLanguageName item1.originalLanguage)).2.id,
    (LanguageRepository.FindOrCreate (syncItem env ⟨db, 0, 0⟩ item1).db
      item2.originalLanguage (getLanguageName item2.originalLanguage)).2.id,
    (resolveGenres env item1 item1.genreIDs
      (LanguageRepository.FindOrCreate db item1.originalLanguage
        (getLanguageName item1.originalLanguage)).1).2,
    (resolveGenres env item2 item2.genreIDs
      (LanguageRepository.FindOrCreate (syncItem env ⟨db, 0, 0⟩ item1).db
        item2.originalLanguage (getLanguageName item2.originalLanguage)).1).2,
    ha1, hu1, hm1, ha2, hu2, hm2, ?_⟩
  rw [hm2, List.filter_append]
  have hfl : db.movies.filter (fun m => m.tmdbID == item1.id) = [] :=
    List.filter_eq_nil_iff.mpr (fun m hm => by simpa using hnone m hm)
  rw [hfl]
  simp [hsame]

end MovieAPI

namespace MovieAPI

/-- C1: (i) for a fetched item whose external id already has a stored row
(and whose repository calls all succeed), the sync upsert leaves the store
the same size, bumps only the `updated` counter, and replaces the matching
row by one that keeps the existing internal id and creation timestamp while
every other field comes from the new payload (language/genre references as
resolved for it, `updatedAt` refreshed by the store); (ii) upserting the
same external id twice into a store that does not yet contain it leaves
exactly one row with that external id, carrying the later payload's fields
together with the internal id and creation timestamp assigned by the first
insert. -/
theorem C1_upsert_by_external_id :
    (∀ (env : SyncEnv) (st : SyncState) (item : TMDBMovieResponse) (ex : Movie),
      noItemFaults env item →
      MovieRepository.FindByTMDBID st.db item.id = some ex →
      (syncItem env st item).added = st.added ∧
      (syncItem env st item).updated = st.updated + 1 ∧
      (syncItem env st item).db.movies.length = st.db.movies.length ∧
      ∃ lid gs t, (syncItem env st item).db.movies
        = st.db.movies.map (fun x =>
            if x.id = ex.id
            then { id := ex.id, tmdbID := item.id, title := item.title,
                   originalTitle := item.originalTitle, overview := item.overview,
                   releaseDate := item.releaseDate, posterPath := item.posterPath,
                   backdropPath := item.backdropPath, voteAverage := item.voteAverage,
                   voteCount := item.voteCount, popularity := item.popularity,
                   adult := item.adult, languageID := some lid, genres := gs,
                   createdAt := ex.createdAt, updatedAt := t }
            else x)) ∧
    (∀ (env : SyncEnv) (db : DB) (item1 item2 : TMDBMovieResponse),
      noItemFaults env item1 → noItemFaults env item2 →
      item2.id = item1.id →
      (∀ m ∈ db.movies, m.id < db.nextMovieID) →
      (∀ m ∈ db.movies, m.tmdbID ≠ item1.id) →
      ∃ c u1 u2 lid1 lid2 gs1 gs2,
        (syncItem env ⟨db, 0, 0⟩ item1).added = 1 ∧
        (syncItem env ⟨db, 0, 0⟩ item1).updated = 0 ∧
        (syncItem env ⟨db, 0, 0⟩ item1).db.movies
          = db.movies ++
            [{ id := db.nextMovieID, tmdbID := item1.id, title := item1.title,
               originalTitle := item1.originalTitle, overview := item1.overview,
               releaseDate := item1.releaseDate, posterPath := item1.posterPath,
               backdropPath := item1.backdropPath, voteAverage := item1.voteAverage,
               voteCount := item1.voteCount, popularity := item1.popularity,
               adult := item1.adult, languageID := some lid1, genres := gs1,
               createdAt := c, updatedAt := u1 }] ∧
        (syncItem env (syncItem env ⟨db, 0, 0⟩ item1) item2).added = 1 ∧
        (syncItem env (syncItem env ⟨db, 0, 0⟩ item1) item2).updated = 1 ∧
        (syncItem env (syncItem env ⟨db, 0, 0⟩ item1) item2).db.movies
          = db.movies ++
            [{ id := db.nextMovieID, tmdbID := item2.id, title := item2.title,
               originalTitle := item2.originalTitle, overview := item2.overview,
               releaseDate := item2.releaseDate, posterPath := item2.posterPath,
               backdropPath := item2.backdropPath, voteAverage := item2.voteAverage,
               voteCount := item2.voteCount, popularity := item2.popularity,
               adult := item2.adult, languageID := some lid2, genres := gs2,
               createdAt := c, updatedAt := u2 }] ∧
        ((syncItem env (syncItem env ⟨db, 0, 0⟩ item1) item2).db.movies.filter
            (fun m => m.tmdbID == item1.id)).length = 1) :=
  ⟨fun env st item ex hnf hex => syncItem_upsert_existing env st item ex hnf hex,
   fun env db item1 item2 hnf1 hnf2 hsame hfresh hnone =>
     syncItem_upsert_twice env db item1 item2 hnf1 hnf2 hsame hfresh hnone⟩

/-- Witness for C1: upserting external id 550 twice (payloads `itemA` then
`itemA2`) into the empty store. -/
theorem C1_witness :
    ∃ c u1 u2 lid1 lid2 gs1 gs2,
      (syncItem envNoFaults ⟨dbEmpty, 0, 0⟩ itemA).added = 1 ∧
      (syncItem envNoFaults ⟨dbEmpty, 0, 0⟩ itemA).updated = 0 ∧
      (syncItem envNoFaults ⟨dbEmpty, 0, 0⟩ itemA).db.movies
        = dbEmpty.movies ++
          [{ id := dbEmpty.nextMovieID, tmdbID := itemA.id, title := itemA.title,
             originalTitle := itemA.originalTitle, overview := itemA.overview,
             releaseDate := itemA.releaseDate, posterPath := itemA.posterPath,
             backdropPath := itemA.backdropPath, voteAverage := itemA.voteAverage,
             voteCount := itemA.voteCount, popularity := itemA.popularity,
             adult := itemA.adult, languageID := some lid1, genres := gs1,
             createdAt := c, updatedAt := u1 }] ∧
      (syncItem envNoFaults (syncItem envNoFaults ⟨dbEmpty, 0, 0⟩ itemA) itemA2).added = 1 ∧
      (syncItem envNoFaults (syncItem envNoFaults ⟨dbEmpty, 0, 0⟩ itemA) itemA2).updated = 1 ∧
      (syncItem envNoFaults (syncItem envNoFaults ⟨dbEmpty, 0, 0⟩ itemA) itemA2).db.movies
        = dbEmpty.movies ++
          [{ id := dbEmpty.nextMovieID, tmdbID := itemA2.id, title := itemA2.title,
             originalTitle := itemA2.originalTitle, overview := itemA2.overview,
             releaseDate := itemA2.releaseDate, posterPath := itemA2.posterPath,
             backdropPath := itemA2.backdropPath, voteAverage := itemA2.voteAverage,
             voteCount := itemA2.voteCount, popularity := itemA2.popularity,
             adult := itemA2.adult, languageID := some lid2, genres := gs2,
             createdAt := c, updatedAt := u2 }] ∧
      ((syncItem envNoFaults (syncItem envNoFaults ⟨dbEmpty, 0, 0⟩ itemA) itemA2).db.movies.filter
          (fun m => m.tmdbID == itemA.id)).length = 1 :=
  C1_upsert_by_external_id.2 envNoFaults dbEmpty itemA itemA2
    ⟨rfl, fun g => rfl, rfl, rfl⟩ ⟨rfl, fun g => rfl, rfl, rfl⟩ rfl
    (by intro m hm; simp [dbEmpty] at hm) (by intro m hm; simp [dbEmpty] at hm)

end MovieAPI
